import Mathlib

/-!
Shallow embedding of `src/logger/__init__.py` (the Lumosylva/logger
repository): the `ServiceNameFilter` class and the `setup_logging`
routine, together with the slice of the Python standard `logging` and
`os.environ` behaviour that the module exercises.

Modelling conventions:
* `os.environ` is a function from variable names to optional values.
* Python `None` arguments are `Option.none`; Python `arg or fallback`
  on strings/ints is modelled with Python truthiness (empty string and
  zero are falsy).
* A propagated Python exception is `Except.error msg`.
* Machine-external effects (directory creation, rotating-file open) are
  an oracle `FS` saying which of the two calls inside the `try` block
  raises, if any.
* The process-wide logging state (`_is_configured`, the root logger's
  level, its attached handlers, the handlers detached-and-closed so
  far, and the trace of logging calls submitted to the root) is the
  structure `LogState`; `setup_logging` is a state transformer on it.
  The module-level `logging.error`/`logging.info` helpers the source
  calls at lines 130 and 135 invoke `logging.basicConfig()` when the
  root has no handlers, attaching a stderr stream handler; the model
  includes this.
* String case mapping is ASCII, which agrees with Python's
  `str.upper`/`str.lower` on every string these claims touch.
-/

namespace LoggerSpec

/-- An environment, as read by `os.environ.get`: maps a variable name to
its value when that variable is set. -/
abbrev Env := String → Option String

/-- The external constants collaborator (`config.constants.params.Params`,
imported at line 7 and read at lines 10-14): it provides the default
level string, log-directory name and log filename. Its concrete values
live outside this repository, so the model is parametric in them. -/
structure Params where
  log_level : String
  log_dir_name : String
  log_filename : String
deriving DecidableEq

/-- Line 12 of the source. -/
def DEFAULT_LOG_FORMAT : String := "%(asctime)s - %(service)s - %(levelname)s - %(message)s"

/-- Line 15 of the source: 10 * 1024 * 1024. -/
def DEFAULT_LOG_MAX_BYTES : Int := 10 * 1024 * 1024

/-- Line 16 of the source. -/
def DEFAULT_LOG_BACKUP_COUNT : Int := 5

/-- Line 17 of the source. -/
def DEFAULT_LOG_TO_CONSOLE : Bool := true

/-- Line 18 of the source. -/
def DEFAULT_LOG_TO_FILE : Bool := true

/-- ASCII uppercase of one character, as Python `str.upper` acts on
ASCII input. -/
def asciiUpper (c : Char) : Char :=
  if 'a' ≤ c ∧ c ≤ 'z' then Char.ofNat (c.toNat - 32) else c

/-- ASCII lowercase of one character, as Python `str.lower` acts on
ASCII input. -/
def asciiLower (c : Char) : Char :=
  if 'A' ≤ c ∧ c ≤ 'Z' then Char.ofNat (c.toNat + 32) else c

/-- Python `s.upper()` (ASCII fragment). -/
def strUpper (s : String) : String := String.mk (s.data.map asciiUpper)

/-- Python `s.lower()` (ASCII fragment). -/
def strLower (s : String) : String := String.mk (s.data.map asciiLower)

/-- Python `arg or fallback` for an optional string argument: `None` and
the empty string are falsy, so both select the fallback. Used at lines
67, 68, 71, 72 of the source. -/
def pyOr (arg : Option String) (fallback : String) : String :=
  match arg with
  | none => fallback
  | some s => if s = "" then fallback else s

/-- Python `str` applied to a bool. -/
def pyStrBool (b : Bool) : String := if b then "True" else "False"

/-- Numeric value of an ASCII digit character. -/
def digitVal (c : Char) : Nat := c.toNat - 48

/-- Digits of a Python integer literal after the first digit: Python
`int` accepts single underscores between digits. -/
def pyDigitsRest : Nat → List Char → Option Nat
  | acc, [] => some acc
  | acc, '_' :: c :: cs => if c.isDigit then pyDigitsRest (acc * 10 + digitVal c) cs else none
  | _, ['_'] => none
  | acc, c :: cs => if c.isDigit then pyDigitsRest (acc * 10 + digitVal c) cs else none

/-- A nonempty digit run, first digit mandatory. -/
def pyDigits : List Char → Option Nat
  | [] => none
  | c :: cs => if c.isDigit then pyDigitsRest (digitVal c) cs else none

/-- Drop surrounding whitespace, as Python `str.strip` does before
integer parsing. -/
def stripWs (s : List Char) : List Char :=
  ((s.dropWhile Char.isWhitespace).reverse.dropWhile Char.isWhitespace).reverse

/-- Python `int(s)` on a string: optional surrounding whitespace,
optional sign, then a nonempty digit run with optional single
underscores between digits. Returns `none` exactly where CPython raises
`ValueError`. -/
def pyInt (s : String) : Option Int :=
  match stripWs s.data with
  | '+' :: rest => (pyDigits rest).map (fun n => (n : Int))
  | '-' :: rest => (pyDigits rest).map (fun n => -(n : Int))
  | rest => (pyDigits rest).map (fun n => (n : Int))

/-- The integer-valued all-uppercase attributes of the `logging` module:
severity names mapped to numeric rank. These names are also exactly the
keys of `logging._nameToLevel`, the table `Logger.setLevel` accepts for
string arguments. -/
def loggingLevelAttr : String → Option Int
  | "CRITICAL" => some 50
  | "FATAL" => some 50
  | "ERROR" => some 40
  | "WARNING" => some 30
  | "WARN" => some 30
  | "INFO" => some 20
  | "DEBUG" => some 10
  | "NOTSET" => some 0
  | _ => none

/-- The value of `logging.BASIC_FORMAT` (stdlib line 523), an
all-uppercase attribute of the `logging` module holding a format string
rather than a level. -/
def BASIC_FORMAT : String := "%(levelname)s:%(name)s:%(message)s"

/-- A value that `getattr(logging, u, logging.INFO)` can produce when
`u` is the result of `str.upper`: an integer level, the `BASIC_FORMAT`
string, or the `_STYLES` dict (stdlib line 525) — represented opaquely,
since the program only ever passes it to `setLevel`. -/
inductive PyLevel where
  | int (n : Int)
  | str (s : String)
  | styles
deriving DecidableEq

/-- Line 83 of the source, `getattr(logging, log_level_str.upper(), logging.INFO)`:
the module attributes whose names are fixed points of `str.upper` (no
lowercase letters) are exactly the level constants, `BASIC_FORMAT` and
`_STYLES`, so an upper-cased string can reach only those; any other name
yields the `logging.INFO` default. -/
def getattrLogging (u : String) : PyLevel :=
  match loggingLevelAttr u with
  | some n => PyLevel.int n
  | none =>
    if u = "BASIC_FORMAT" then PyLevel.str BASIC_FORMAT
    else if u = "_STYLES" then PyLevel.styles
    else PyLevel.int 20

/-- The argument check performed by `Logger.setLevel`
(`logging._checkLevel`, stdlib lines 203-212): integers pass through; a
string must be a registered level name, otherwise `ValueError`; any
other object — such as the `_STYLES` dict — raises `TypeError` (payload
repr elided from the message). -/
def checkLevel : PyLevel → Except String Int
  | PyLevel.int n => Except.ok n
  | PyLevel.str s =>
    match loggingLevelAttr s with
    | some n => Except.ok n
    | none => Except.error ("Unknown level: " ++ s)
  | PyLevel.styles => Except.error "Level not an integer or a valid string"

/-- A log record, reduced to the fields this module touches: numeric
severity, message text, and the `service` attribute stamped by the
filter. -/
structure Record where
  levelno : Int
  msg : String
  service : Option String
deriving DecidableEq

/-- Lines 23-27 of the source: `ServiceNameFilter` holds the bound
service name. -/
structure ServiceNameFilter where
  service_name : String
deriving DecidableEq

/-- Lines 29-31 of the source: `record.service = self.service_name;
return True`. The boolean is the filter verdict. -/
def ServiceNameFilter.filter (f : ServiceNameFilter) (r : Record) : Record × Bool :=
  ({ r with service := some f.service_name }, true)

/-- Kind of an attached handler: the run's `StreamHandler(sys.stdout)`,
its `RotatingFileHandler` with its construction parameters, or the
`StreamHandler(sys.stderr)` that `logging.basicConfig` attaches. -/
inductive HandlerKind where
  | console
  | file (path : String) (maxBytes : Int) (backupCount : Int) (encoding : String)
  | stderr
deriving DecidableEq

/-- A handler attached to the root logger: its kind, its own level, its
formatter string, and the service name bound into its attached
`ServiceNameFilter` when it has one (the basicConfig handler has none). -/
structure Handler where
  kind : HandlerKind
  level : Int
  fmt : String
  serviceFilter : Option String
deriving DecidableEq

/-- Whether a handler is the console (stdout) handler. -/
def Handler.isConsole (h : Handler) : Bool :=
  match h.kind with
  | HandlerKind.console => true
  | _ => false

/-- Whether a handler is the rotating file handler. -/
def Handler.isFile (h : Handler) : Bool :=
  match h.kind with
  | HandlerKind.file _ _ _ _ => true
  | _ => false

/-- Whether a handler is a basicConfig stderr handler. -/
def Handler.isStderr (h : Handler) : Bool :=
  match h.kind with
  | HandlerKind.stderr => true
  | _ => false

/-- Delivery of one record through one attached handler
(`Logger.callHandlers` plus `Handler.handle`): the handler-level gate,
then the attached `ServiceNameFilter` when present, which stamps the
service attribute and lets the record through. -/
def Handler.handle (h : Handler) (r : Record) : Option Record :=
  if h.level ≤ r.levelno then
    match h.serviceFilter with
    | none => some r
    | some name =>
      match ServiceNameFilter.filter { service_name := name } r with
      | (r2, true) => some r2
      | (_, false) => none
  else none

/-- The process-wide logging state: the `_is_configured` flag (line 21),
and the shared root logger with its level, its attached handlers, the
handlers detached and closed so far, and the trace of logging calls
submitted against the root. -/
structure LogState where
  isConfigured : Bool
  rootLevel : Int
  handlers : List Handler
  closed : List Handler
  submitted : List Record
deriving DecidableEq

/-- Python process start: flag false, root logger at WARNING (30) with
no handlers attached. -/
def initialState : LogState :=
  { isConfigured := false, rootLevel := 30, handlers := [], closed := [], submitted := [] }

/-- A record is delivered to a handler when the handler is attached to
the root, the record clears the root level, and the handler's own gate
and filter pass. -/
def LogState.delivers (st : LogState) (h : Handler) (r : Record) : Prop :=
  h ∈ st.handlers ∧ st.rootLevel ≤ r.levelno ∧ (h.handle r).isSome = true

/-- The arguments of `setup_logging` (lines 33-43), with Python `None`
as `Option.none`. -/
structure Args where
  service_name : String
  level : Option String
  log_to_console : Option Bool
  log_to_file : Option Bool
  log_dir : Option String
  log_filename : Option String
  log_format : Option String
  max_bytes : Option Int
  backup_count : Option Int
deriving DecidableEq

/-- Arguments with every optional argument left at `None`. -/
def argsNone (service : String) : Args :=
  { service_name := service, level := none, log_to_console := none, log_to_file := none,
    log_dir := none, log_filename := none, log_format := none,
    max_bytes := none, backup_count := none }

/-- The configuration resolved by lines 67-74 of the source. -/
structure Config where
  log_level_str : String
  log_format_str : String
  should_log_to_console : Bool
  should_log_to_file : Bool
  log_directory : String
  log_file_name : String
  max_log_bytes : Int
  backup_log_count : Int
deriving DecidableEq

/-- Python `os.environ.get(key, d)` with a string default. -/
def envGet (env : Env) (key : String) (d : String) : String := (env key).getD d

/-- Lines 69-70 of the source: the argument when it is not `None`, else
`os.environ.get(key, str(default)).lower() == 'true'`. Note the default
handed to `get` is the string form of the built-in boolean default. -/
def resolveBool (arg : Option Bool) (env : Env) (key : String) (d : Bool) : Bool :=
  match arg with
  | some b => b
  | none => strLower (envGet env key (pyStrBool d)) == "true"

/-- Lines 73-74, inner expression `int(os.environ.get(key, default_int))`:
when the variable is unset, `get` returns the integer default itself and
`int` is the identity on it; when it is set, the string is parsed, and a
malformed string raises `ValueError`. -/
def envInt (env : Env) (key : String) (d : Int) : Except String Int :=
  match env key with
  | none => Except.ok d
  | some v =>
    match pyInt v with
    | some n => Except.ok n
    | none => Except.error ("invalid literal for int() with base 10: " ++ v)

/-- Lines 73-74, whole expression `arg or int(...)`: `None` and `0` are
falsy, and by short-circuiting the `int` call is only evaluated in those
cases. -/
def resolveInt (arg : Option Int) (env : Env) (key : String) (d : Int) : Except String Int :=
  match arg with
  | some n => if n = 0 then envInt env key d else Except.ok n
  | none => envInt env key d

/-- Configuration resolution, lines 67-74 of `setup_logging`. The string
and boolean resolutions are total; the two integer resolutions can
raise, the `LOG_MAX_BYTES` one first, exactly as the statements at lines
73 and 74 execute in order. -/
def resolveConfig (params : Params) (a : Args) (env : Env) : Except String Config :=
  match resolveInt a.max_bytes env "LOG_MAX_BYTES" DEFAULT_LOG_MAX_BYTES with
  | Except.error e => Except.error e
  | Except.ok max_log_bytes =>
    match resolveInt a.backup_count env "LOG_BACKUP_COUNT" DEFAULT_LOG_BACKUP_COUNT with
    | Except.error e => Except.error e
    | Except.ok backup_log_count =>
      Except.ok
        { log_level_str := pyOr a.level (envGet env "LOG_LEVEL" params.log_level)
          log_format_str := pyOr a.log_format (envGet env "LOG_FORMAT" DEFAULT_LOG_FORMAT)
          should_log_to_console := resolveBool a.log_to_console env "LOG_TO_CONSOLE" DEFAULT_LOG_TO_CONSOLE
          should_log_to_file := resolveBool a.log_to_file env "LOG_TO_FILE" DEFAULT_LOG_TO_FILE
          log_directory := pyOr a.log_dir (envGet env "LOG_DIR" params.log_dir_name)
          log_file_name := pyOr a.log_filename (envGet env "LOG_FILENAME" params.log_filename)
          max_log_bytes := max_log_bytes
          backup_log_count := backup_log_count }

/-- Line 114/117 of the source: `project_root / log_directory / log_file_name`
(path joining abstracted to separator concatenation; no claim depends on
`pathlib` path normalisation). -/
def logFilePath (projectRoot : String) (cfg : Config) : String :=
  projectRoot ++ "/" ++ cfg.log_directory ++ "/" ++ cfg.log_file_name

/-- Line 130 of the source: the message of the `logging.error` call in
the `except` branch. -/
def fileErrorMsg (projectRoot : String) (cfg : Config) (e : String) : String :=
  "Failed to configure file logging to " ++ logFilePath projectRoot cfg ++ ": " ++ e

/-- Outcome of the two file-system calls inside the `try` block (lines
115-124): `mkdir` and the rotating-file open each either succeed or
raise; `Exception` payloads are their messages. -/
inductive FS where
  | ok
  | mkdirFail (e : String)
  | openFail (e : String)
deriving DecidableEq

/-- The sink handlers attached by lines 100-128: a console handler when
console output is enabled, then a rotating file handler when file output
is enabled and both file-system calls succeed. Each carries the resolved
level, the resolved formatter string and the service-name filter. -/
def sinkHandlers (projectRoot : String) (fs : FS) (a : Args) (cfg : Config) (lvl : Int) : List Handler :=
  (if cfg.should_log_to_console then
      [{ kind := HandlerKind.console, level := lvl, fmt := cfg.log_format_str,
         serviceFilter := some a.service_name }]
    else [])
  ++ (if cfg.should_log_to_file then
      match fs with
      | FS.ok =>
        [{ kind := HandlerKind.file (logFilePath projectRoot cfg) cfg.max_log_bytes cfg.backup_log_count "utf-8",
           level := lvl, fmt := cfg.log_format_str, serviceFilter := some a.service_name }]
      | FS.mkdirFail _ => []
      | FS.openFail _ => []
    else [])

/-- The handler `logging.basicConfig()` attaches when called with no
arguments: a `StreamHandler(sys.stderr)` at NOTSET (0) with the default
format string and no filter. -/
def basicHandler : Handler :=
  { kind := HandlerKind.stderr, level := 0, fmt := BASIC_FORMAT, serviceFilter := none }

/-- The module-level helpers `logging.error` and `logging.info` call
`logging.basicConfig()` when the root logger has no handlers (stdlib
lines 2113 and 2146), attaching `basicHandler`. -/
def addBasicIfEmpty (hs : List Handler) : List Handler :=
  if hs = [] then [basicHandler] else hs

/-- The handlers attached over one effective run: the sinks of lines
100-128; then, when file output failed, the basicConfig handler that the
`logging.error` call at line 130 attaches if the root is handler-less at
that point; then the one the final `logging.info` at line 135 attaches
if the root is still handler-less. An effective run therefore never
leaves the root without handlers. -/
def newHandlers (projectRoot : String) (fs : FS) (a : Args) (cfg : Config) (lvl : Int) : List Handler :=
  let hs := sinkHandlers projectRoot fs a cfg lvl
  let hs2 := if cfg.should_log_to_file then
      match fs with
      | FS.ok => hs
      | FS.mkdirFail _ => addBasicIfEmpty hs
      | FS.openFail _ => addBasicIfEmpty hs
    else hs
  addBasicIfEmpty hs2

/-- Line 135 of the source: the final informational summary message. -/
def summaryMsg (service : String) (cfg : Config) : String :=
  "Logging configured for service '" ++ service ++ "'. Level: " ++ cfg.log_level_str
    ++ ", Console: " ++ pyStrBool cfg.should_log_to_console
    ++ ", File: " ++ pyStrBool cfg.should_log_to_file

/-- The logging calls made by one effective run: the `logging.error`
call when the file sink failed (line 130), then the final `logging.info`
summary (line 135). -/
def newSubmitted (projectRoot : String) (fs : FS) (a : Args) (cfg : Config) : List Record :=
  (if cfg.should_log_to_file then
      match fs with
      | FS.ok => []
      | FS.mkdirFail e => [{ levelno := 40, msg := fileErrorMsg projectRoot cfg e, service := none }]
      | FS.openFail e => [{ levelno := 40, msg := fileErrorMsg projectRoot cfg e, service := none }]
    else [])
  ++ [{ levelno := 20, msg := summaryMsg a.service_name cfg, service := none }]

/-- The state after one effective run (lines 76-135): root level set to
the checked numeric level (line 84), every previously attached handler
detached and closed (lines 89-91), the fresh handlers attached (lines
100-128, plus the basicConfig stderr handler when the logging calls at
lines 130/135 find the root handler-less), the flag set (line 134), and
the error/summary records submitted (lines 130 and 135). -/
def configuredState (projectRoot : String) (fs : FS) (a : Args) (cfg : Config) (lvl : Int) (st : LogState) : LogState :=
  { isConfigured := true
    rootLevel := lvl
    handlers := newHandlers projectRoot fs a cfg lvl
    closed := st.closed ++ st.handlers
    submitted := st.submitted ++ newSubmitted projectRoot fs a cfg }

/-- Lines 33-135 of the source, `setup_logging`, as a state transformer:
return immediately when already configured (lines 61-64); resolve the
configuration (lines 67-74, can raise on malformed integer environment
values); check the level for `setLevel` (lines 83-84, can raise on the
`BASIC_FORMAT` string attribute); otherwise rebuild the root logger
state. -/
def setup_logging (params : Params) (projectRoot : String) (fs : FS) (a : Args) (env : Env) (st : LogState) : Except String LogState :=
  if st.isConfigured then Except.ok st
  else
    match resolveConfig params a env with
    | Except.error e => Except.error e
    | Except.ok cfg =>
      match checkLevel (getattrLogging (strUpper cfg.log_level_str)) with
      | Except.error e => Except.error e
      | Except.ok lvl => Except.ok (configuredState projectRoot fs a cfg lvl st)

/-! Concrete fixtures used by the closed evaluations below. -/

/-- Concrete stand-in for the external constants collaborator. -/
def pDefault : Params := { log_level := "INFO", log_dir_name := "logs", log_filename := "app.log" }

/-- An environment with no logging variable set. -/
def envNone : Env := fun _ => none

/-- An environment with only LOG_LEVEL set. -/
def envLevelDebug : Env := fun k => if k = "LOG_LEVEL" then some "DEBUG" else none

/-- An environment with a malformed LOG_MAX_BYTES value. -/
def envBadMax : Env := fun k => if k = "LOG_MAX_BYTES" then some "not_an_int" else none

/-- An environment with a malformed LOG_BACKUP_COUNT value. -/
def envBadBackup : Env := fun k => if k = "LOG_BACKUP_COUNT" then some "nope" else none

/-- An environment with both boolean variables set. -/
def envBools : Env := fun k =>
  if k = "LOG_TO_CONSOLE" then some "TRUE" else if k = "LOG_TO_FILE" then some "yes" else none

/-- Arguments passing the empty string (non-null but falsy) as `level`. -/
def argsEmptyLevel : Args := { argsNone "svc" with level := some "" }

/-- Arguments passing an explicit level and max_bytes. -/
def argsLevelArg : Args := { argsNone "svc" with level := some "WARNING", max_bytes := some 7 }

/-- Arguments passing the unrecognized level string "BOGUS", sinks off. -/
def argsBogus : Args :=
  { argsNone "svc" with level := some "BOGUS", log_to_console := some false, log_to_file := some false }

/-- Arguments passing the level string "basic_format". -/
def argsBasicFmt : Args := { argsNone "svc" with level := some "basic_format" }

/-- Arguments passing the level string "_styles". -/
def argsStyles : Args := { argsNone "svc" with level := some "_styles" }

/-- Arguments forcing console off and file on. -/
def argsNoConsole : Args :=
  { argsNone "svc" with log_to_console := some false, log_to_file := some true }

/-- Arguments forcing console on and file on. -/
def argsBoth : Args :=
  { argsNone "svc" with log_to_console := some true, log_to_file := some true }

/-- The configuration resolved from all-None arguments in an empty
environment under `pDefault`. -/
def cfgDef : Config :=
  { log_level_str := "INFO", log_format_str := DEFAULT_LOG_FORMAT,
    should_log_to_console := true, should_log_to_file := true,
    log_directory := "logs", log_file_name := "app.log",
    max_log_bytes := 10485760, backup_log_count := 5 }

/-- The configuration resolved from `argsLevelArg`. -/
def cfgLevelArg : Config := { cfgDef with log_level_str := "WARNING", max_log_bytes := 7 }

/-- The configuration resolved from all-None arguments under `envBools`. -/
def cfgBools : Config := { cfgDef with should_log_to_file := false }

/-- The configuration resolved from `argsBogus`. -/
def cfgBogus : Config :=
  { cfgDef with log_level_str := "BOGUS", should_log_to_console := false, should_log_to_file := false }

/-- The console handler created by a run with service name "svc" at
level 20 and the default format. -/
def consoleSvc : Handler :=
  { kind := HandlerKind.console, level := 20, fmt := DEFAULT_LOG_FORMAT, serviceFilter := some "svc" }

/-- The file handler created by such a run under project root "/proj". -/
def fileSvc : Handler :=
  { kind := HandlerKind.file "/proj/logs/app.log" 10485760 5 "utf-8",
    level := 20, fmt := DEFAULT_LOG_FORMAT, serviceFilter := some "svc" }

/-- A leftover handler attached before setup runs. -/
def staleHandler : Handler :=
  { kind := HandlerKind.console, level := 10, fmt := "old", serviceFilter := some "oldsvc" }

/-- An unconfigured state carrying one stale handler. -/
def stStale : LogState :=
  { isConfigured := false, rootLevel := 30, handlers := [staleHandler], closed := [], submitted := [] }

/-- A state in which a first call has already completed. -/
def stAlready : LogState :=
  { isConfigured := true, rootLevel := 20, handlers := [consoleSvc], closed := [], submitted := [] }

/-- Summary message for service "svc", level INFO, both sinks on. -/
def summaryTT : String := "Logging configured for service 'svc'. Level: INFO, Console: True, File: True"

/-- Summary message for service "svc", level BOGUS, both sinks off. -/
def summaryBogusFF : String := "Logging configured for service 'svc'. Level: BOGUS, Console: False, File: False"

/-- Summary message for service "svc", level INFO, console off, file on. -/
def summaryFT : String := "Logging configured for service 'svc'. Level: INFO, Console: False, File: True"

/-- Error message for a file-sink failure with payload "boom". -/
def errorBoom : String := "Failed to configure file logging to /proj/logs/app.log: boom"

/-- The state after a first run from `stStale` with default arguments. -/
def stAfterStale : LogState :=
  { isConfigured := true, rootLevel := 20, handlers := [consoleSvc, fileSvc],
    closed := [staleHandler], submitted := [{ levelno := 20, msg := summaryTT, service := none }] }

/-- The state after a first run from `initialState` with default arguments. -/
def stAfterFresh : LogState :=
  { isConfigured := true, rootLevel := 20, handlers := [consoleSvc, fileSvc],
    closed := [], submitted := [{ levelno := 20, msg := summaryTT, service := none }] }

/-- The state after a first run with level "BOGUS" and both sinks off:
the final logging.info call finds the root handler-less, so basicConfig
attaches its stderr handler. -/
def stAfterBogus : LogState :=
  { isConfigured := true, rootLevel := 20, handlers := [basicHandler], closed := [],
    submitted := [{ levelno := 20, msg := summaryBogusFF, service := none }] }

/-- The state after a first run with console off and the file sink
failing on directory creation: the logging.error call finds the root
handler-less, so basicConfig attaches its stderr handler. -/
def stAfterMkdirFail : LogState :=
  { isConfigured := true, rootLevel := 20, handlers := [basicHandler], closed := [],
    submitted := [{ levelno := 40, msg := errorBoom, service := none },
                  { levelno := 20, msg := summaryFT, service := none }] }

/-- The state after a first run with console on and the file sink
failing on directory creation. -/
def stAfterC6 : LogState :=
  { isConfigured := true, rootLevel := 20, handlers := [consoleSvc], closed := [],
    submitted := [{ levelno := 40, msg := errorBoom, service := none },
                  { levelno := 20, msg := summaryTT, service := none }] }

/-! Helper lemmas about the resolution primitives. -/

theorem pyOr_some_of_ne (s d : String) (h : s ≠ "") : pyOr (some s) d = s := by
  simp [pyOr, h]

theorem pyOr_none (d : String) : pyOr none d = d := rfl

theorem pyOr_some_empty (d : String) : pyOr (some "") d = d := rfl

theorem envGet_some (env : Env) (key d v : String) (h : env key = some v) : envGet env key d = v := by
  simp [envGet, h]

theorem resolveInt_some_of_ne (env : Env) (key : String) (d n : Int) (h : n ≠ 0) :
    resolveInt (some n) env key d = Except.ok n := by
  simp [resolveInt, h]

theorem resolveInt_zero (env : Env) (key : String) (d : Int) :
    resolveInt (some 0) env key d = envInt env key d := rfl

theorem resolveInt_none (env : Env) (key : String) (d : Int) :
    resolveInt none env key d = envInt env key d := rfl

theorem envInt_unset (env : Env) (key : String) (d : Int) (h : env key = none) :
    envInt env key d = Except.ok d := by
  simp [envInt, h]

theorem envInt_parsed (env : Env) (key : String) (d : Int) (v : String) (n : Int)
    (hv : env key = some v) (hn : pyInt v = some n) : envInt env key d = Except.ok n := by
  simp [envInt, hv, hn]

theorem envInt_malformed (env : Env) (key : String) (d : Int) (v : String)
    (hv : env key = some v) (hn : pyInt v = none) :
    envInt env key d = Except.error ("invalid literal for int() with base 10: " ++ v) := by
  simp [envInt, hv, hn]

theorem resolveBool_some (b : Bool) (env : Env) (key : String) (d : Bool) :
    resolveBool (some b) env key d = b := rfl

theorem resolveBool_unset (env : Env) (key : String) (d : Bool) (h : env key = none) :
    resolveBool none env key d = (strLower (pyStrBool d) == "true") := by
  simp [resolveBool, envGet, h]

theorem resolveBool_set (env : Env) (key : String) (d : Bool) (v : String) (h : env key = some v) :
    resolveBool none env key d = (strLower v == "true") := by
  simp [resolveBool, envGet, h]

/-- Inversion of a successful configuration resolution into its parts. -/
theorem resolveConfig_ok_inv (params : Params) (a : Args) (env : Env) (cfg : Config)
    (h : resolveConfig params a env = Except.ok cfg) :
    ∃ m b, resolveInt a.max_bytes env "LOG_MAX_BYTES" DEFAULT_LOG_MAX_BYTES = Except.ok m
      ∧ resolveInt a.backup_count env "LOG_BACKUP_COUNT" DEFAULT_LOG_BACKUP_COUNT = Except.ok b
      ∧ cfg = { log_level_str := pyOr a.level (envGet env "LOG_LEVEL" params.log_level)
                log_format_str := pyOr a.log_format (envGet env "LOG_FORMAT" DEFAULT_LOG_FORMAT)
                should_log_to_console := resolveBool a.log_to_console env "LOG_TO_CONSOLE" DEFAULT_LOG_TO_CONSOLE
                should_log_to_file := resolveBool a.log_to_file env "LOG_TO_FILE" DEFAULT_LOG_TO_FILE
                log_directory := pyOr a.log_dir (envGet env "LOG_DIR" params.log_dir_name)
                log_file_name := pyOr a.log_filename (envGet env "LOG_FILENAME" params.log_filename)
                max_log_bytes := m
                backup_log_count := b } := by
  unfold resolveConfig at h
  cases hm : resolveInt a.max_bytes env "LOG_MAX_BYTES" DEFAULT_LOG_MAX_BYTES with
  | error e => rw [hm] at h; exact Except.noConfusion (show Except.error e = Except.ok cfg from h)
  | ok m =>
    rw [hm] at h
    cases hb : resolveInt a.backup_count env "LOG_BACKUP_COUNT" DEFAULT_LOG_BACKUP_COUNT with
    | error e => rw [hb] at h; exact Except.noConfusion (show Except.error e = Except.ok cfg from h)
    | ok b =>
      rw [hb] at h
      have h2 : Except.ok _ = Except.ok cfg := h
      injection h2 with h3
      exact ⟨m, b, rfl, rfl, h3.symm⟩

/-- Lines 61-64: a second call is a no-op on the state. -/
theorem setup_logging_noop (params : Params) (projectRoot : String) (fs : FS) (a : Args) (env : Env)
    (st : LogState) (h : st.isConfigured = true) :
    setup_logging params projectRoot fs a env st = Except.ok st := by
  unfold setup_logging
  rw [h]
  rfl

/-- A resolution error propagates out of an unconfigured call. -/
theorem setup_logging_err (params : Params) (projectRoot : String) (fs : FS) (a : Args) (env : Env)
    (st : LogState) (e : String) (hst : st.isConfigured = false)
    (h : resolveConfig params a env = Except.error e) :
    setup_logging params projectRoot fs a env st = Except.error e := by
  unfold setup_logging
  rw [hst, h]
  rfl

/-- A first effective call with a good configuration and level builds
the configured state. -/
theorem setup_logging_run (params : Params) (projectRoot : String) (fs : FS) (a : Args) (env : Env)
    (st : LogState) (cfg : Config) (lvl : Int) (hst : st.isConfigured = false)
    (hcfg : resolveConfig params a env = Except.ok cfg)
    (hlvl : checkLevel (getattrLogging (strUpper cfg.log_level_str)) = Except.ok lvl) :
    setup_logging params projectRoot fs a env st
      = Except.ok (configuredState projectRoot fs a cfg lvl st) := by
  unfold setup_logging
  rw [hst, hcfg]
  dsimp only
  rw [hlvl]
  rfl

/-- Inversion of a successful first effective call. -/
theorem setup_logging_ok_inv (params : Params) (projectRoot : String) (fs : FS) (a : Args) (env : Env)
    (st st' : LogState) (hst : st.isConfigured = false)
    (hok : setup_logging params projectRoot fs a env st = Except.ok st') :
    ∃ cfg lvl, resolveConfig params a env = Except.ok cfg
      ∧ checkLevel (getattrLogging (strUpper cfg.log_level_str)) = Except.ok lvl
      ∧ st' = configuredState projectRoot fs a cfg lvl st := by
  unfold setup_logging at hok
  rw [hst] at hok
  cases hcfg : resolveConfig params a env with
  | error e =>
    rw [hcfg] at hok
    exact Except.noConfusion (show Except.error e = Except.ok st' from hok)
  | ok cfg =>
    rw [hcfg] at hok
    dsimp only at hok
    cases hlvl : checkLevel (getattrLogging (strUpper cfg.log_level_str)) with
    | error e =>
      rw [hlvl] at hok
      exact Except.noConfusion (show Except.error e = Except.ok st' from hok)
    | ok lvl =>
      rw [hlvl] at hok
      have h2 : Except.ok (configuredState projectRoot fs a cfg lvl st) = Except.ok st' := hok
      injection h2 with h3
      exact ⟨cfg, lvl, rfl, hlvl, h3.symm⟩

/-- Adding the basicConfig handler to an empty list never yields an
empty list, so an effective run never leaves the root handler-less. -/
theorem addBasicIfEmpty_ne_nil (hs : List Handler) : addBasicIfEmpty hs ≠ [] := by
  unfold addBasicIfEmpty
  by_cases h : hs = []
  · simp [h]
  · simp [h]

/-- The handler list after one effective run is never empty. -/
theorem newHandlers_ne_nil (projectRoot : String) (fs : FS) (a : Args) (cfg : Config) (lvl : Int) :
    newHandlers projectRoot fs a cfg lvl ≠ [] := by
  unfold newHandlers
  exact addBasicIfEmpty_ne_nil _

/-- The handlers attached by one run contain at most one console handler. -/
theorem newHandlers_console_count (projectRoot : String) (fs : FS) (a : Args) (cfg : Config) (lvl : Int) :
    ((newHandlers projectRoot fs a cfg lvl).filter Handler.isConsole).length ≤ 1 := by
  unfold newHandlers sinkHandlers addBasicIfEmpty
  by_cases hc : cfg.should_log_to_console <;> by_cases hf : cfg.should_log_to_file <;> cases fs <;>
    simp [hc, hf, basicHandler, Handler.isConsole, Handler.isFile, Handler.isStderr]

/-- The handlers attached by one run contain at most one file handler. -/
theorem newHandlers_file_count (projectRoot : String) (fs : FS) (a : Args) (cfg : Config) (lvl : Int) :
    ((newHandlers projectRoot fs a cfg lvl).filter Handler.isFile).length ≤ 1 := by
  unfold newHandlers sinkHandlers addBasicIfEmpty
  by_cases hc : cfg.should_log_to_console <;> by_cases hf : cfg.should_log_to_file <;> cases fs <;>
    simp [hc, hf, basicHandler, Handler.isConsole, Handler.isFile, Handler.isStderr]

/-- The handlers attached by one run contain at most one basicConfig
stderr handler. -/
theorem newHandlers_stderr_count (projectRoot : String) (fs : FS) (a : Args) (cfg : Config) (lvl : Int) :
    ((newHandlers projectRoot fs a cfg lvl).filter Handler.isStderr).length ≤ 1 := by
  unfold newHandlers sinkHandlers addBasicIfEmpty
  by_cases hc : cfg.should_log_to_console <;> by_cases hf : cfg.should_log_to_file <;> cases fs <;>
    simp [hc, hf, basicHandler, Handler.isConsole, Handler.isFile, Handler.isStderr]

/-- Every handler attached by one run either carries that run's service
filter (the run's own sinks) or is the filter-less basicConfig handler. -/
theorem newHandlers_service_or_basic (projectRoot : String) (fs : FS) (a : Args) (cfg : Config) (lvl : Int) :
    ∀ h ∈ newHandlers projectRoot fs a cfg lvl,
      h.serviceFilter = some a.service_name ∨ h = basicHandler := by
  by_cases hc : cfg.should_log_to_console <;> by_cases hf : cfg.should_log_to_file <;>
    cases fs <;> intro h hmem <;>
    unfold newHandlers sinkHandlers addBasicIfEmpty at hmem <;>
    simp [hc, hf] at hmem <;> (try rcases hmem with hmem | hmem) <;>
    (try subst hmem) <;> simp [basicHandler]

/-- When a file-system call fails, the run attaches the console handler
when console output is enabled, and otherwise only the basicConfig
stderr handler that the logging.error call triggers. -/
theorem newHandlers_fsFail (projectRoot : String) (fs : FS) (a : Args) (cfg : Config) (lvl : Int)
    (e : String) (hfs : fs = FS.mkdirFail e ∨ fs = FS.openFail e) :
    newHandlers projectRoot fs a cfg lvl
      = if cfg.should_log_to_console then
          [{ kind := HandlerKind.console, level := lvl, fmt := cfg.log_format_str,
             serviceFilter := some a.service_name }]
        else [basicHandler] := by
  rcases hfs with rfl | rfl <;> unfold newHandlers sinkHandlers addBasicIfEmpty <;>
    by_cases hc : cfg.should_log_to_console <;> by_cases hf : cfg.should_log_to_file <;>
    simp [hc, hf]

/-- When file output is enabled and a file-system call fails, the run
submits the error record and then the summary record. -/
theorem newSubmitted_fsFail (projectRoot : String) (fs : FS) (a : Args) (cfg : Config) (e : String)
    (hfile : cfg.should_log_to_file = true) (hfs : fs = FS.mkdirFail e ∨ fs = FS.openFail e) :
    newSubmitted projectRoot fs a cfg
      = [{ levelno := 40, msg := fileErrorMsg projectRoot cfg e, service := none },
         { levelno := 20, msg := summaryMsg a.service_name cfg, service := none }] := by
  rcases hfs with rfl | rfl <;> unfold newSubmitted <;> simp [hfile]

/-- The informational records submitted by one run are exactly the one
summary record. -/
theorem newSubmitted_info (projectRoot : String) (fs : FS) (a : Args) (cfg : Config) :
    (newSubmitted projectRoot fs a cfg).filter (fun r => r.levelno == 20)
      = [{ levelno := 20, msg := summaryMsg a.service_name cfg, service := none }] := by
  have h40 : ((40 : Int) == 20) = false := by decide
  have h20 : ((20 : Int) == 20) = true := by decide
  unfold newSubmitted
  by_cases hf : cfg.should_log_to_file <;> cases fs <;>
    simp [hf, List.filter_append, List.filter_cons, List.filter_nil, h40, h20]

/-! Claims. -/

/-- Claim C1, counterexample: the claim says a provided, non-null
argument always determines the resolved value, but the explicitly
provided empty string for `level` (non-null) is falsy under Python `or`,
so with `LOG_LEVEL=DEBUG` set the resolved level string is "DEBUG", not
the provided "". -/
theorem C1_cex :
    (resolveConfig pDefault argsEmptyLevel envLevelDebug).map Config.log_level_str
        = Except.ok "DEBUG"
    ∧ ("DEBUG" : String) ≠ "" := by
  constructor
  · rfl
  · decide

/-- Claim C1 (amended): per-field precedence as the code implements it.
For the two boolean fields a non-null argument always determines the
resolved value; for the six `or`-resolved fields the argument determines
the value only when it is truthy (non-empty string, non-zero integer),
and a null or falsy argument falls through to the environment variable
when that variable is set (for the numeric fields, to its parsed value
when it parses; a malformed value raises instead of resolving). -/
theorem C1_precedence (params : Params) (a : Args) (env : Env) (cfg : Config)
    (h : resolveConfig params a env = Except.ok cfg) :
    (∀ s, a.level = some s → s ≠ "" → cfg.log_level_str = s)
    ∧ ((a.level = none ∨ a.level = some "") → ∀ v, env "LOG_LEVEL" = some v → cfg.log_level_str = v)
    ∧ (∀ s, a.log_format = some s → s ≠ "" → cfg.log_format_str = s)
    ∧ ((a.log_format = none ∨ a.log_format = some "") → ∀ v, env "LOG_FORMAT" = some v → cfg.log_format_str = v)
    ∧ (∀ b, a.log_to_console = some b → cfg.should_log_to_console = b)
    ∧ (a.log_to_console = none → ∀ v, env "LOG_TO_CONSOLE" = some v → cfg.should_log_to_console = (strLower v == "true"))
    ∧ (∀ b, a.log_to_file = some b → cfg.should_log_to_file = b)
    ∧ (a.log_to_file = none → ∀ v, env "LOG_TO_FILE" = some v → cfg.should_log_to_file = (strLower v == "true"))
    ∧ (∀ s, a.log_dir = some s → s ≠ "" → cfg.log_directory = s)
    ∧ ((a.log_dir = none ∨ a.log_dir = some "") → ∀ v, env "LOG_DIR" = some v → cfg.log_directory = v)
    ∧ (∀ s, a.log_filename = some s → s ≠ "" → cfg.log_file_name = s)
    ∧ ((a.log_filename = none ∨ a.log_filename = some "") → ∀ v, env "LOG_FILENAME" = some v → cfg.log_file_name = v)
    ∧ (∀ n, a.max_bytes = some n → n ≠ 0 → cfg.max_log_bytes = n)
    ∧ ((a.max_bytes = none ∨ a.max_bytes = some 0) → ∀ v n, env "LOG_MAX_BYTES" = some v → pyInt v = some n → cfg.max_log_bytes = n)
    ∧ (∀ n, a.backup_count = some n → n ≠ 0 → cfg.backup_log_count = n)
    ∧ ((a.backup_count = none ∨ a.backup_count = some 0) → ∀ v n, env "LOG_BACKUP_COUNT" = some v → pyInt v = some n → cfg.backup_log_count = n) := by
  obtain ⟨m, b, hm, hb, rfl⟩ := resolveConfig_ok_inv params a env cfg h
  refine ⟨?_, ?_, ?_, ?_, ?_, ?_, ?_, ?_, ?_, ?_, ?_, ?_, ?_, ?_, ?_, ?_⟩
  · intro s hs hne
    show pyOr a.level (envGet env "LOG_LEVEL" params.log_level) = s
    rw [hs]
    exact pyOr_some_of_ne s _ hne
  · intro hcase v hv
    show pyOr a.level (envGet env "LOG_LEVEL" params.log_level) = v
    rcases hcase with h0 | h0 <;> rw [h0] <;> simp [pyOr, envGet, hv]
  · intro s hs hne
    show pyOr a.log_format (envGet env "LOG_FORMAT" DEFAULT_LOG_FORMAT) = s
    rw [hs]
    exact pyOr_some_of_ne s _ hne
  · intro hcase v hv
    show pyOr a.log_format (envGet env "LOG_FORMAT" DEFAULT_LOG_FORMAT) = v
    rcases hcase with h0 | h0 <;> rw [h0] <;> simp [pyOr, envGet, hv]
  · intro bb hbb
    show resolveBool a.log_to_console env "LOG_TO_CONSOLE" DEFAULT_LOG_TO_CONSOLE = bb
    rw [hbb]
    rfl
  · intro h0 v hv
    show resolveBool a.log_to_console env "LOG_TO_CONSOLE" DEFAULT_LOG_TO_CONSOLE = (strLower v == "true")
    rw [h0]
    exact resolveBool_set env "LOG_TO_CONSOLE" DEFAULT_LOG_TO_CONSOLE v hv
  · intro bb hbb
    show resolveBool a.log_to_file env "LOG_TO_FILE" DEFAULT_LOG_TO_FILE = bb
    rw [hbb]
    rfl
  · intro h0 v hv
    show resolveBool a.log_to_file env "LOG_TO_FILE" DEFAULT_LOG_TO_FILE = (strLower v == "true")
    rw [h0]
    exact resolveBool_set env "LOG_TO_FILE" DEFAULT_LOG_TO_FILE v hv
  · intro s hs hne
    show pyOr a.log_dir (envGet env "LOG_DIR" params.log_dir_name) = s
    rw [hs]
    exact pyOr_some_of_ne s _ hne
  · intro hcase v hv
    show pyOr a.log_dir (envGet env "LOG_DIR" params.log_dir_name) = v
    rcases hcase with h0 | h0 <;> rw [h0] <;> simp [pyOr, envGet, hv]
  · intro s hs hne
    show pyOr a.log_filename (envGet env "LOG_FILENAME" params.log_filename) = s
    rw [hs]
    exact pyOr_some_of_ne s _ hne
  · intro hcase v hv
    show pyOr a.log_filename (envGet env "LOG_FILENAME" params.log_filename) = v
    rcases hcase with h0 | h0 <;> rw [h0] <;> simp [pyOr, envGet, hv]
  · intro n hn hne
    show m = n
    rw [hn, resolveInt_some_of_ne env "LOG_MAX_BYTES" DEFAULT_LOG_MAX_BYTES n hne] at hm
    injection hm with h3
    exact h3.symm
  · intro hcase v n hv hn
    show m = n
    rcases hcase with h0 | h0
    · rw [h0, resolveInt_none, envInt_parsed env "LOG_MAX_BYTES" DEFAULT_LOG_MAX_BYTES v n hv hn] at hm
      injection hm with h3
      exact h3.symm
    · rw [h0, resolveInt_zero, envInt_parsed env "LOG_MAX_BYTES" DEFAULT_LOG_MAX_BYTES v n hv hn] at hm
      injection hm with h3
      exact h3.symm
  · intro n hn hne
    show b = n
    rw [hn, resolveInt_some_of_ne env "LOG_BACKUP_COUNT" DEFAULT_LOG_BACKUP_COUNT n hne] at hb
    injection hb with h3
    exact h3.symm
  · intro hcase v n hv hn
    show b = n
    rcases hcase with h0 | h0
    · rw [h0, resolveInt_none, envInt_parsed env "LOG_BACKUP_COUNT" DEFAULT_LOG_BACKUP_COUNT v n hv hn] at hb
      injection hb with h3
      exact h3.symm
    · rw [h0, resolveInt_zero, envInt_parsed env "LOG_BACKUP_COUNT" DEFAULT_LOG_BACKUP_COUNT v n hv hn] at hb
      injection hb with h3
      exact h3.symm

/-- Claim C1, witness: the amended precedence theorem at a concrete
input — an explicit "WARNING" level beats `LOG_LEVEL=DEBUG`, an explicit
non-zero `max_bytes` beats the default. -/
theorem C1_witness :
    (resolveConfig pDefault argsLevelArg envLevelDebug = Except.ok cfgLevelArg)
    ∧ cfgLevelArg.log_level_str = "WARNING" ∧ cfgLevelArg.max_log_bytes = 7 :=
  ⟨by rfl,
   (C1_precedence pDefault argsLevelArg envLevelDebug cfgLevelArg (by rfl)).1 "WARNING" rfl (by decide),
   (C1_precedence pDefault argsLevelArg envLevelDebug cfgLevelArg (by rfl)).2.2.2.2.2.2.2.2.2.2.2.2.1 7 rfl (by decide)⟩

/-- Claim C2, counterexample: with `LOG_MAX_BYTES=not_an_int` set and
`max_bytes=None`, `setup_logging` propagates the `ValueError` from
`int(...)` instead of silently falling back to the default. -/
theorem C2_cex :
    setup_logging pDefault "/proj" FS.ok (argsNone "svc") envBadMax initialState
      = Except.error "invalid literal for int() with base 10: not_an_int" := by
  rfl

/-- Claim C2 (amended): when the corresponding argument is null, a
malformed (non-integer) `LOG_MAX_BYTES` or `LOG_BACKUP_COUNT` value
makes `setup_logging` raise `ValueError` (nothing is configured); only
an absent variable falls back to the built-in defaults 10,485,760 and 5. -/
theorem C2_env_ints (params : Params) (projectRoot : String) (fs : FS) (a : Args) (env : Env)
    (st : LogState) (hst : st.isConfigured = false) :
    (a.max_bytes = none → ∀ v, env "LOG_MAX_BYTES" = some v → pyInt v = none →
        setup_logging params projectRoot fs a env st
          = Except.error ("invalid literal for int() with base 10: " ++ v))
    ∧ (a.backup_count = none → ∀ v, env "LOG_BACKUP_COUNT" = some v → pyInt v = none →
        ∀ m, resolveInt a.max_bytes env "LOG_MAX_BYTES" DEFAULT_LOG_MAX_BYTES = Except.ok m →
        setup_logging params projectRoot fs a env st
          = Except.error ("invalid literal for int() with base 10: " ++ v))
    ∧ (a.max_bytes = none → env "LOG_MAX_BYTES" = none →
        ∀ cfg, resolveConfig params a env = Except.ok cfg → cfg.max_log_bytes = 10485760)
    ∧ (a.backup_count = none → env "LOG_BACKUP_COUNT" = none →
        ∀ cfg, resolveConfig params a env = Except.ok cfg → cfg.backup_log_count = 5) := by
  refine ⟨?_, ?_, ?_, ?_⟩
  · intro h0 v hv hn
    refine setup_logging_err params projectRoot fs a env st _ hst ?_
    unfold resolveConfig
    rw [h0, resolveInt_none, envInt_malformed env "LOG_MAX_BYTES" DEFAULT_LOG_MAX_BYTES v hv hn]
  · intro h0 v hv hn m hm
    refine setup_logging_err params projectRoot fs a env st _ hst ?_
    unfold resolveConfig
    rw [hm]
    dsimp only
    rw [h0, resolveInt_none, envInt_malformed env "LOG_BACKUP_COUNT" DEFAULT_LOG_BACKUP_COUNT v hv hn]
  · intro h0 henv cfg hcfg
    obtain ⟨m, b, hm, hb, rfl⟩ := resolveConfig_ok_inv params a env cfg hcfg
    show m = 10485760
    rw [h0, resolveInt_none, envInt_unset env "LOG_MAX_BYTES" DEFAULT_LOG_MAX_BYTES henv] at hm
    injection hm with h3
    rw [← h3]
    decide
  · intro h0 henv cfg hcfg
    obtain ⟨m, b, hm, hb, rfl⟩ := resolveConfig_ok_inv params a env cfg hcfg
    show b = 5
    rw [h0, resolveInt_none, envInt_unset env "LOG_BACKUP_COUNT" DEFAULT_LOG_BACKUP_COUNT henv] at hb
    injection hb with h3
    rw [← h3]
    decide

/-- Claim C2, witness: the amended theorem at a concrete input — a
malformed `LOG_BACKUP_COUNT` raises. -/
theorem C2_witness :
    setup_logging pDefault "/proj" FS.ok (argsNone "svc") envBadBackup initialState
      = Except.error "invalid literal for int() with base 10: nope" :=
  (C2_env_ints pDefault "/proj" FS.ok (argsNone "svc") envBadBackup initialState rfl).2.1
    rfl "nope" rfl (by rfl) 10485760 (by rfl)

/-- Claim C3: once the configured flag is set, every further call
returns the state unchanged — no handler is attached, detached or
closed, the root level is untouched, no record is submitted, and the
flag stays true. -/
theorem C3_idempotent (params : Params) (projectRoot : String) (fs : FS) (a : Args) (env : Env)
    (st : LogState) (h : st.isConfigured = true) :
    setup_logging params projectRoot fs a env st = Except.ok st :=
  setup_logging_noop params projectRoot fs a env st h

/-- Claim C3, witness: a second call on an already-configured state is a
no-op. -/
theorem C3_witness :
    stAlready.isConfigured = true
    ∧ setup_logging pDefault "/proj" FS.ok (argsNone "other") envNone stAlready
        = Except.ok stAlready :=
  ⟨rfl, C3_idempotent pDefault "/proj" FS.ok (argsNone "other") envNone stAlready rfl⟩

/-- Claim C4, counterexample: the claim says an absent boolean variable
resolves to disabled, but with no variables set and null arguments both
`should_log_to_console` and `should_log_to_file` resolve to enabled,
because `os.environ.get` is given the string form of the built-in `True`
default. -/
theorem C4_cex :
    (resolveConfig pDefault (argsNone "svc") envNone).map Config.should_log_to_console
        = Except.ok true
    ∧ (resolveConfig pDefault (argsNone "svc") envNone).map Config.should_log_to_file
        = Except.ok true := by
  constructor <;> rfl

/-- Claim C4 (amended): a non-null boolean argument always wins
(including explicit `False` over an environment "true"); with a null
argument a set variable resolves by case-insensitive comparison with
"true"; an absent variable resolves to the built-in default, which is
enabled for both sinks. -/
theorem C4_bool_resolution (params : Params) (a : Args) (env : Env) (cfg : Config)
    (h : resolveConfig params a env = Except.ok cfg) :
    (∀ b, a.log_to_console = some b → cfg.should_log_to_console = b)
    ∧ (a.log_to_console = none → ∀ v, env "LOG_TO_CONSOLE" = some v →
        cfg.should_log_to_console = (strLower v == "true"))
    ∧ (a.log_to_console = none → env "LOG_TO_CONSOLE" = none → cfg.should_log_to_console = true)
    ∧ (∀ b, a.log_to_file = some b → cfg.should_log_to_file = b)
    ∧ (a.log_to_file = none → ∀ v, env "LOG_TO_FILE" = some v →
        cfg.should_log_to_file = (strLower v == "true"))
    ∧ (a.log_to_file = none → env "LOG_TO_FILE" = none → cfg.should_log_to_file = true) := by
  obtain ⟨m, b, hm, hb, rfl⟩ := resolveConfig_ok_inv params a env cfg h
  refine ⟨?_, ?_, ?_, ?_, ?_, ?_⟩
  · intro bb hbb
    show resolveBool a.log_to_console env "LOG_TO_CONSOLE" DEFAULT_LOG_TO_CONSOLE = bb
    rw [hbb]
    rfl
  · intro h0 v hv
    show resolveBool a.log_to_console env "LOG_TO_CONSOLE" DEFAULT_LOG_TO_CONSOLE = (strLower v == "true")
    rw [h0]
    exact resolveBool_set env "LOG_TO_CONSOLE" DEFAULT_LOG_TO_CONSOLE v hv
  · intro h0 hv
    show resolveBool a.log_to_console env "LOG_TO_CONSOLE" DEFAULT_LOG_TO_CONSOLE = true
    rw [h0, resolveBool_unset env "LOG_TO_CONSOLE" DEFAULT_LOG_TO_CONSOLE hv]
    rfl
  · intro bb hbb
    show resolveBool a.log_to_file env "LOG_TO_FILE" DEFAULT_LOG_TO_FILE = bb
    rw [hbb]
    rfl
  · intro h0 v hv
    show resolveBool a.log_to_file env "LOG_TO_FILE" DEFAULT_LOG_TO_FILE = (strLower v == "true")
    rw [h0]
    exact resolveBool_set env "LOG_TO_FILE" DEFAULT_LOG_TO_FILE v hv
  · intro h0 hv
    show resolveBool a.log_to_file env "LOG_TO_FILE" DEFAULT_LOG_TO_FILE = true
    rw [h0, resolveBool_unset env "LOG_TO_FILE" DEFAULT_LOG_TO_FILE hv]
    rfl

/-- Claim C4, witness: the amended theorem at a concrete input —
`LOG_TO_CONSOLE=TRUE` resolves enabled, `LOG_TO_FILE=yes` resolves
disabled. -/
theorem C4_witness :
    (resolveConfig pDefault (argsNone "svc") envBools = Except.ok cfgBools)
    ∧ cfgBools.should_log_to_console = true ∧ cfgBools.should_log_to_file = false :=
  ⟨by rfl,
   ((C4_bool_resolution pDefault (argsNone "svc") envBools cfgBools (by rfl)).2.1
      rfl "TRUE" rfl).trans (by rfl),
   ((C4_bool_resolution pDefault (argsNone "svc") envBools cfgBools (by rfl)).2.2.2.2.1
      rfl "yes" rfl).trans (by rfl)⟩

/-- Claim C5, counterexample: neither "basic_format" nor "_styles" is a
recognized severity name, yet neither resolves to INFO's rank: `getattr`
finds the `logging.BASIC_FORMAT` format string (then `setLevel` raises
`ValueError`) respectively the `logging._STYLES` dict (then `setLevel`
raises `TypeError`), so `setup_logging` propagates an exception instead
of configuring at INFO. -/
theorem C5_cex :
    (setup_logging pDefault "/proj" FS.ok argsBasicFmt envNone initialState
        = Except.error "Unknown level: %(levelname)s:%(name)s:%(message)s")
    ∧ (setup_logging pDefault "/proj" FS.ok argsStyles envNone initialState
        = Except.error "Level not an integer or a valid string") := by
  constructor <;> rfl

/-- Claim C5 (amended): for every resolved level string whose upper-case
form names no attribute of the `logging` module — every unrecognized
string except "basic_format" and "_styles" — a successful
`setup_logging` run sets the root logger's level to 20, INFO's numeric
rank (and the `getattr` mapping itself is total, never raising). -/
theorem C5_unrecognized_level (params : Params) (projectRoot : String) (fs : FS) (a : Args)
    (env : Env) (st st' : LogState) (cfg : Config)
    (hst : st.isConfigured = false)
    (hcfg : resolveConfig params a env = Except.ok cfg)
    (hunrec : loggingLevelAttr (strUpper cfg.log_level_str) = none)
    (hnb : strUpper cfg.log_level_str ≠ "BASIC_FORMAT")
    (hns : strUpper cfg.log_level_str ≠ "_STYLES")
    (hok : setup_logging params projectRoot fs a env st = Except.ok st') :
    st'.rootLevel = 20 := by
  have hga : getattrLogging (strUpper cfg.log_level_str) = PyLevel.int 20 := by
    unfold getattrLogging
    rw [hunrec]
    simp [hnb, hns]
  have hlvl : checkLevel (getattrLogging (strUpper cfg.log_level_str)) = Except.ok 20 := by
    rw [hga]
    rfl
  obtain ⟨cfg2, lvl2, hcfg2, hlvl2, rfl⟩ :=
    setup_logging_ok_inv params projectRoot fs a env st st' hst hok
  have hceq : cfg2 = cfg := by
    have h4 := hcfg.symm.trans hcfg2
    injection h4 with h5
    exact h5.symm
  subst hceq
  have h6 := hlvl.symm.trans hlvl2
  injection h6 with h7
  show lvl2 = 20
  exact h7.symm

/-- Claim C5, witness: the amended theorem at the concrete unrecognized
level string "BOGUS". -/
theorem C5_witness :
    (setup_logging pDefault "/proj" FS.ok argsBogus envNone initialState
        = Except.ok stAfterBogus)
    ∧ stAfterBogus.rootLevel = 20 :=
  ⟨by rfl,
   C5_unrecognized_level pDefault "/proj" FS.ok argsBogus envNone initialState stAfterBogus
     cfgBogus rfl (by rfl) (by rfl) (by decide) (by decide) (by rfl)⟩

/-- Claim C6: when directory creation or the rotating-file open raises
during file-sink construction, `setup_logging` completes without
propagating: the resulting state attaches no file handler, an
error-severity record is submitted through the root, and when console
output was enabled the console handler is attached and delivers every
record that clears the resolved level, with the service name stamped. -/
theorem C6_file_failure (params : Params) (projectRoot : String) (fs : FS) (a : Args)
    (env : Env) (st : LogState) (cfg : Config) (lvl : Int) (e : String)
    (hst : st.isConfigured = false)
    (hcfg : resolveConfig params a env = Except.ok cfg)
    (hlvl : checkLevel (getattrLogging (strUpper cfg.log_level_str)) = Except.ok lvl)
    (hfile : cfg.should_log_to_file = true)
    (hfs : fs = FS.mkdirFail e ∨ fs = FS.openFail e) :
    (setup_logging params projectRoot fs a env st
        = Except.ok (configuredState projectRoot fs a cfg lvl st))
    ∧ (∀ h ∈ (configuredState projectRoot fs a cfg lvl st).handlers, h.isFile = false)
    ∧ ({ levelno := 40, msg := fileErrorMsg projectRoot cfg e, service := none } : Record)
        ∈ (configuredState projectRoot fs a cfg lvl st).submitted
    ∧ (cfg.should_log_to_console = true → ∀ r : Record, lvl ≤ r.levelno →
        (configuredState projectRoot fs a cfg lvl st).delivers
          { kind := HandlerKind.console, level := lvl, fmt := cfg.log_format_str,
            serviceFilter := some a.service_name } r
        ∧ Handler.handle
            { kind := HandlerKind.console, level := lvl, fmt := cfg.log_format_str,
              serviceFilter := some a.service_name } r
            = some { r with service := some a.service_name }) := by
  refine ⟨setup_logging_run params projectRoot fs a env st cfg lvl hst hcfg hlvl, ?_, ?_, ?_⟩
  · intro h hmem
    have hmem2 : h ∈ newHandlers projectRoot fs a cfg lvl := hmem
    rw [newHandlers_fsFail projectRoot fs a cfg lvl e hfs] at hmem2
    by_cases hc : cfg.should_log_to_console
    · rw [if_pos hc] at hmem2
      rw [List.mem_singleton.mp hmem2]
      rfl
    · rw [if_neg hc] at hmem2
      rw [List.mem_singleton.mp hmem2]
      rfl
  · show _ ∈ st.submitted ++ newSubmitted projectRoot fs a cfg
    rw [newSubmitted_fsFail projectRoot fs a cfg e hfile hfs]
    exact List.mem_append.mpr (Or.inr (List.mem_cons_self _ _))
  · intro hc r hr
    have hhandle : Handler.handle
        { kind := HandlerKind.console, level := lvl, fmt := cfg.log_format_str,
          serviceFilter := some a.service_name } r
        = some { r with service := some a.service_name } := by
      unfold Handler.handle
      rw [if_pos hr]
      rfl
    refine ⟨⟨?_, hr, ?_⟩, hhandle⟩
    · show _ ∈ newHandlers projectRoot fs a cfg lvl
      rw [newHandlers_fsFail projectRoot fs a cfg lvl e hfs, if_pos hc]
      exact List.mem_singleton.mpr rfl
    · rw [hhandle]
      rfl

/-- Claim C6, witness: the theorem at a concrete input — directory
creation fails with "boom", console enabled. -/
theorem C6_witness :
    (setup_logging pDefault "/proj" (FS.mkdirFail "boom") argsBoth envNone initialState
        = Except.ok stAfterC6)
    ∧ ({ levelno := 40, msg := errorBoom, service := none } : Record) ∈ stAfterC6.submitted
    ∧ stAfterC6.delivers consoleSvc { levelno := 20, msg := "hello", service := none } := by
  have h := C6_file_failure pDefault "/proj" (FS.mkdirFail "boom") argsBoth envNone initialState
    cfgDef 20 "boom" rfl (by rfl) (by rfl) (by rfl) (Or.inl rfl)
  exact ⟨by rfl, h.2.2.1,
    (h.2.2.2 (by rfl) { levelno := 20, msg := "hello", service := none } (by decide)).1⟩

/-- Claim C7, counterexample: with both sinks disabled, the final
`logging.info` call of the first effective run finds the root
handler-less and triggers `logging.basicConfig`, which attaches a stderr
stream handler carrying no `ServiceNameFilter` — a handler that is not
one of the run's own sinks, contradicting the claim that only that
run's console/file sinks end up attached. -/
theorem C7_cex :
    (setup_logging pDefault "/proj" FS.ok argsBogus envNone initialState
        = Except.ok stAfterBogus)
    ∧ stAfterBogus.handlers = [basicHandler]
    ∧ basicHandler.serviceFilter = none := by
  refine ⟨by rfl, by rfl, rfl⟩

/-- Claim C7 (amended): a successful call either leaves an
already-configured state untouched, or — on the first effective run —
detaches and closes every previously attached handler and attaches at
most one console sink, at most one file sink and at most one basicConfig
stderr handler, where every attached handler either carries that run's
service filter (the run's own sinks) or is the filter-less basicConfig
handler that the run's module-level logging calls attach when no sink
was installed. -/
theorem C7_sink_reset (params : Params) (projectRoot : String) (fs : FS) (a : Args) (env : Env)
    (st st' : LogState)
    (hok : setup_logging params projectRoot fs a env st = Except.ok st') :
    (st.isConfigured = true → st' = st)
    ∧ (st.isConfigured = false →
        st'.closed = st.closed ++ st.handlers
        ∧ (st'.handlers.filter Handler.isConsole).length ≤ 1
        ∧ (st'.handlers.filter Handler.isFile).length ≤ 1
        ∧ (st'.handlers.filter Handler.isStderr).length ≤ 1
        ∧ ∀ h ∈ st'.handlers, h.serviceFilter = some a.service_name ∨ h = basicHandler) := by
  constructor
  · intro h1
    have h2 := (setup_logging_noop params projectRoot fs a env st h1).symm.trans hok
    injection h2 with h3
    exact h3.symm
  · intro h1
    obtain ⟨cfg, lvl, hcfg, hlvl, rfl⟩ :=
      setup_logging_ok_inv params projectRoot fs a env st st' h1 hok
    exact ⟨rfl, newHandlers_console_count projectRoot fs a cfg lvl,
           newHandlers_file_count projectRoot fs a cfg lvl,
           newHandlers_stderr_count projectRoot fs a cfg lvl,
           newHandlers_service_or_basic projectRoot fs a cfg lvl⟩

/-- Claim C7, witness: the amended theorem at a concrete input — a stale
handler is moved to the closed list and exactly one console plus one
file handler remain attached, with no stderr handler. -/
theorem C7_witness :
    (setup_logging pDefault "/proj" FS.ok (argsNone "svc") envNone stStale
        = Except.ok stAfterStale)
    ∧ stAfterStale.closed = stStale.closed ++ stStale.handlers
    ∧ (stAfterStale.handlers.filter Handler.isConsole).length ≤ 1
    ∧ (stAfterStale.handlers.filter Handler.isFile).length ≤ 1
    ∧ (stAfterStale.handlers.filter Handler.isStderr).length ≤ 1 := by
  have h := (C7_sink_reset pDefault "/proj" FS.ok (argsNone "svc") envNone stStale stAfterStale
    (by rfl)).2 rfl
  exact ⟨by rfl, h.1, h.2.1, h.2.2.1, h.2.2.2.1⟩

/-- Claim C8: every first effective run submits, among the records it
adds, exactly one informational record — the summary carrying the
service name, the resolved level string and both sink flags. -/
theorem C8_summary (params : Params) (projectRoot : String) (fs : FS) (a : Args) (env : Env)
    (st st' : LogState) (hst : st.isConfigured = false)
    (hok : setup_logging params projectRoot fs a env st = Except.ok st') :
    ∃ cfg, resolveConfig params a env = Except.ok cfg
      ∧ (st'.submitted.drop st.submitted.length).filter (fun r => r.levelno == 20)
          = [{ levelno := 20, msg := summaryMsg a.service_name cfg, service := none }] := by
  obtain ⟨cfg, lvl, hcfg, hlvl, rfl⟩ :=
    setup_logging_ok_inv params projectRoot fs a env st st' hst hok
  refine ⟨cfg, hcfg, ?_⟩
  show ((st.submitted ++ newSubmitted projectRoot fs a cfg).drop st.submitted.length).filter _ = _
  rw [List.drop_left]
  exact newSubmitted_info projectRoot fs a cfg

/-- Claim C8, witness: the theorem at a concrete input — the one
informational record of a default first run is the summary. -/
theorem C8_witness :
    (setup_logging pDefault "/proj" FS.ok (argsNone "svc") envNone initialState
        = Except.ok stAfterFresh)
    ∧ (stAfterFresh.submitted.drop initialState.submitted.length).filter (fun r => r.levelno == 20)
        = [{ levelno := 20, msg := summaryMsg "svc" cfgDef, service := none }] := by
  refine ⟨by rfl, ?_⟩
  obtain ⟨cfg, hcfg, hfilter⟩ := C8_summary pDefault "/proj" FS.ok (argsNone "svc") envNone
    initialState stAfterFresh rfl (by rfl)
  have hc : cfg = cfgDef := by
    have h2 : Except.ok cfg = Except.ok cfgDef := hcfg.symm.trans (by rfl)
    exact Except.ok.inj h2
  rw [hc] at hfilter
  exact hfilter

/-- Claim C9: for every record, a `ServiceNameFilter` overwrites the
record's service attribute with its bound name and returns true (no
record is ever suppressed), and two instances bound to the same name
act identically. -/
theorem C9_filter_stamps (f g : ServiceNameFilter) (r : Record)
    (hfg : f.service_name = g.service_name) :
    f.filter r = ({ r with service := some f.service_name }, true)
    ∧ f.filter r = g.filter r := by
  constructor
  · rfl
  · unfold ServiceNameFilter.filter
    rw [hfg]

/-- Claim C9, witness: the theorem at a concrete record whose service
attribute is already set — it is overwritten and the verdict is true. -/
theorem C9_witness :
    ServiceNameFilter.filter { service_name := "svc" }
        { levelno := 20, msg := "m", service := some "other" }
      = ({ levelno := 20, msg := "m", service := some "svc" }, true) :=
  (C9_filter_stamps { service_name := "svc" } { service_name := "svc" }
    { levelno := 20, msg := "m", service := some "other" } rfl).1

/-- Claim C10, counterexample: the claim's both-sinks-disabled and
file-failure scenarios do not end with "no sinks attached at all": with
console disabled and directory creation failing, the `logging.error`
call at line 130 finds the root handler-less and `logging.basicConfig`
attaches its stderr handler, so the resulting handler list is
`[basicHandler]`, not empty. -/
theorem C10_cex :
    (setup_logging pDefault "/proj" (FS.mkdirFail "boom") argsNoConsole envNone initialState
        = Except.ok stAfterMkdirFail)
    ∧ stAfterMkdirFail.handlers = [basicHandler]
    ∧ stAfterMkdirFail.handlers ≠ [] := by
  refine ⟨by rfl, by rfl, by simp [stAfterMkdirFail]⟩

/-- Claim C10 (amended): every call that returns without raising leaves
the configured flag true — the first effective run sets it even when the
file sink failed or no sink was enabled, though in those sink-less cases
the run's own module-level logging calls trigger `logging.basicConfig`,
so the root is never left handler-less — and from then on every further
call, with any arguments whatsoever, returns the state unchanged and so
cannot repair or change the configuration. -/
theorem C10_flag_permanent (params : Params) (projectRoot : String) (fs : FS) (a : Args)
    (env : Env) (st st' : LogState)
    (hok : setup_logging params projectRoot fs a env st = Except.ok st') :
    st'.isConfigured = true
    ∧ (st.isConfigured = false → st'.handlers ≠ [])
    ∧ ∀ (params2 : Params) (projectRoot2 : String) (fs2 : FS) (a2 : Args) (env2 : Env),
        setup_logging params2 projectRoot2 fs2 a2 env2 st' = Except.ok st' := by
  have hflag : st'.isConfigured = true := by
    cases hc : st.isConfigured with
    | true =>
      have h2 := (setup_logging_noop params projectRoot fs a env st hc).symm.trans hok
      injection h2 with h3
      rw [← h3]
      exact hc
    | false =>
      obtain ⟨cfg, lvl, hcfg, hlvl, rfl⟩ :=
        setup_logging_ok_inv params projectRoot fs a env st st' hc hok
      rfl
  refine ⟨hflag, ?_, fun p2 r2 f2 a2 e2 => setup_logging_noop p2 r2 f2 a2 e2 st' hflag⟩
  intro hc
  obtain ⟨cfg, lvl, hcfg, hlvl, rfl⟩ :=
    setup_logging_ok_inv params projectRoot fs a env st st' hc hok
  exact newHandlers_ne_nil projectRoot fs a cfg lvl

/-- Claim C10, witness: the amended theorem at a concrete input — a
first run whose file sink fails and whose console is disabled still sets
the flag (and leaves the basicConfig handler attached, not an empty
sink list), and a later call with different arguments is ignored. -/
theorem C10_witness :
    (setup_logging pDefault "/proj" (FS.mkdirFail "boom") argsNoConsole envNone initialState
        = Except.ok stAfterMkdirFail)
    ∧ stAfterMkdirFail.isConfigured = true
    ∧ stAfterMkdirFail.handlers ≠ []
    ∧ setup_logging pDefault "/proj" FS.ok (argsNone "late") envLevelDebug stAfterMkdirFail
        = Except.ok stAfterMkdirFail :=
  ⟨by rfl,
   (C10_flag_permanent pDefault "/proj" (FS.mkdirFail "boom") argsNoConsole envNone initialState
      stAfterMkdirFail (by rfl)).1,
   (C10_flag_permanent pDefault "/proj" (FS.mkdirFail "boom") argsNoConsole envNone initialState
      stAfterMkdirFail (by rfl)).2.1 rfl,
   (C10_flag_permanent pDefault "/proj" (FS.mkdirFail "boom") argsNoConsole envNone initialState
      stAfterMkdirFail (by rfl)).2.2 pDefault "/proj" FS.ok (argsNone "late") envLevelDebug⟩

end LoggerSpec
